import Mathlib

/-!
Shallow embedding of the dashboard logic of this repository
(librarian dashboard in `src/unnamed/part_000` and
`src/components/counselor/CounselorDashboard.tsx`): the snapshot
loaders, the stats reducers, and the two action handlers, translated
from the TypeScript source.  Remote tables become Lean lists, a
partial-row update by primary key becomes a `List.map` guarded by an
id comparison, numbers become `Int`/`Nat`, nullable values become
`Option`, and an async call that can fail is given its error outcome
as an explicit input.
-/

/- ===== Data model (librarian dashboard, part_000 lines 6-25) ===== -/

/-- `Book` interface (part_000 lines 6-12). Copy counts are TS numbers,
modelled as `Int` so that the unguarded decrement can go negative
exactly as in the source. -/
structure Book where
  id : String
  title : String
  author : String
  total_copies : Int
  available_copies : Int

deriving instance DecidableEq for Book

/-- `status` union of the `BookIssue` interface (part_000 line 16). -/
inductive IssueStatus where
  | requested
  | issued
  | returned
  | overdue

deriving instance DecidableEq for IssueStatus

/-- The joined snapshot row the component keeps in its `bookIssues`
state: the `BookIssue` interface (part_000 lines 14-25).  The
display-only `student` join is omitted; no handler reads it. -/
structure BookIssue where
  id : String
  status : IssueStatus
  issued_date : String
  due_date : String
  book : Option Book

deriving instance DecidableEq for BookIssue

/-- A `book_issues` table row as the backend stores it: the interface
fields plus the columns the handler writes (`return_date`,
`issued_by`) and the foreign key the `book:books(*)` join follows. -/
structure IssueRow where
  id : String
  status : IssueStatus
  issued_date : String
  due_date : String
  return_date : Option String
  issued_by : Option String
  book_id : Option String

deriving instance DecidableEq for IssueRow

/-- The backend state the librarian dashboard reads and writes: the
`books` and `book_issues` tables. -/
structure DB where
  books : List Book
  issues : List IssueRow

deriving instance DecidableEq for DB

/-- Server-side join `book:books(*)`: resolve an issue row's
`book_id` against the `books` table. -/
def joinIssue (books : List Book) (r : IssueRow) : BookIssue :=
  { id := r.id
    status := r.status
    issued_date := r.issued_date
    due_date := r.due_date
    book := r.book_id.bind (fun b => books.find? (fun bk => bk.id == b)) }

/-- The joined rows a fresh `book_issues` read returns. -/
def loadSnapshot (db : DB) : List BookIssue :=
  db.issues.map (joinIssue db.books)

/- ===== Stats reducer (part_000 lines 32-38 and 64-76) ===== -/

/-- The `stats` record of the librarian dashboard (part_000
lines 32-38). -/
structure LibStats where
  totalBooks : Int
  availableBooks : Int
  issuedBooks : Nat
  overdueBooks : Nat
  pendingRequests : Nat

deriving instance DecidableEq for LibStats

/-- The stats computation of `loadLibraryData` (part_000 lines
64-76): two `reduce` sums over the books and three `filter`+`length`
counts over the issues. -/
def libraryStats (booksData : List Book) (issuesData : List BookIssue) : LibStats :=
  { totalBooks := booksData.foldl (fun sum book => sum + book.total_copies) 0
    availableBooks := booksData.foldl (fun sum book => sum + book.available_copies) 0
    issuedBooks := (issuesData.filter (fun issue => issue.status == IssueStatus.issued)).length
    overdueBooks := (issuesData.filter (fun issue => issue.status == IssueStatus.overdue)).length
    pendingRequests := (issuesData.filter (fun issue => issue.status == IssueStatus.requested)).length }

/- ===== Snapshot loader (part_000 lines 44-82) ===== -/

/-- A backend response: `{ data, error }`. -/
structure QueryResult (α : Type) where
  data : Option (List α)
  error : Option String

deriving instance DecidableEq for QueryResult

/-- The component state `loadLibraryData` may write: `books`,
`bookIssues`, `stats`, `loading`. -/
structure LibState where
  books : List Book
  bookIssues : List BookIssue
  stats : LibStats
  loading : Bool

deriving instance DecidableEq for LibState

/-- What one `loadLibraryData` call produces: the new component
state, the `console.error` log lines, and the error (if any) that the
async function propagates to its caller.  The source catches every
failure internally, so `callerError` is always `none`. -/
structure LoadResult where
  state : LibState
  consoleErrors : List String
  callerError : Option String

deriving instance DecidableEq for LoadResult

/-- `loadLibraryData` (part_000 lines 44-82).  The two query results
arrive as inputs.  `if (...error) throw` before any `set*` call means
a failing query reaches the catch block with no state written except
`loading := false` from the `finally`; on success both snapshot
halves and the stats are replaced. -/
def loadLibraryData (prior : LibState) (booksRes : QueryResult Book)
    (issuesRes : QueryResult BookIssue) : LoadResult :=
  match booksRes.error with
  | some e =>
      { state := { prior with loading := false }
        consoleErrors := ["Error loading library data: " ++ e]
        callerError := none }
  | none =>
    match issuesRes.error with
    | some e =>
        { state := { prior with loading := false }
          consoleErrors := ["Error loading library data: " ++ e]
          callerError := none }
    | none =>
      let booksData := booksRes.data.getD []
      let issuesData := issuesRes.data.getD []
      { state :=
          { books := booksData
            bookIssues := issuesData
            stats := libraryStats booksData issuesData
            loading := false }
        consoleErrors := []
        callerError := none }

/- ===== Book-issue action handler (part_000 lines 84-128) ===== -/

/-- The `action` parameter of `handleIssueAction`:
`'approve' | 'return'`. -/
inductive LibAction where
  | approve
  | returnBook

deriving instance DecidableEq for LibAction

/-- The TS string value of a `LibAction`, used in the alert and
console templates. -/
def libActionName : LibAction → String
  | LibAction.approve => "approve"
  | LibAction.returnBook => "return"

/-- A write request sent to the backend: the `book_issues` status
update (part_000 lines 96-99) or the `books` availability update
(lines 107-110 and 115-118). -/
inductive DbWrite where
  | issueUpdate (issueId : String) (action : LibAction)
  | bookUpdate (bookId : String) (newAvailable : Int)

deriving instance DecidableEq for DbWrite

/-- The blocking `alert(...)` a handler ends with. -/
inductive Alert where
  | success (msg : String)
  | failure (msg : String)

deriving instance DecidableEq for Alert

/-- Backend semantics of the `book_issues` update: apply `updateData`
(part_000 lines 86-94) to a matching row.  `approve` writes
`status` and `issued_by`; `return` writes `status` and
`return_date`. -/
def applyIssueUpdate (action : LibAction) (userId : Option String)
    (today : String) (r : IssueRow) : IssueRow :=
  match action with
  | LibAction.approve => { r with status := IssueStatus.issued, issued_by := userId }
  | LibAction.returnBook => { r with status := IssueStatus.returned, return_date := some today }

/-- Backend semantics of `.update({available_copies: n}).eq('id', bookId)`. -/
def dbSetAvailable (db : DB) (bookId : String) (n : Int) : DB :=
  { db with books := db.books.map (fun b =>
      if b.id == bookId then { b with available_copies := n } else b) }

/-- Backend semantics of `.update(updateData).eq('id', issueId)`. -/
def dbUpdateIssue (db : DB) (issueId : String) (action : LibAction)
    (userId : Option String) (today : String) : DB :=
  { db with issues := db.issues.map (fun r =>
      if r.id == issueId then applyIssueUpdate action userId today r else r) }

/-- Result of one `handleIssueAction` call: the backend state, the
writes that were issued, and the final alert. -/
structure ActionResult where
  db : DB
  writes : List DbWrite
  alert : Alert

deriving instance DecidableEq for ActionResult

/-- `handleIssueAction` (part_000 lines 84-128).  `bookIssues` is the
component's locally held snapshot (possibly stale), `statusErr` the
error outcome of the status-update write.  The status update is
issued unconditionally; then, for the approve (lines 104-111) or
return (lines 112-120) branch, the issue is looked up in the local
snapshot and, when it carries a joined book, a second write stores
`available_copies - 1` or `+ 1` computed from the snapshot copy.  No
status precondition and no bound on the count is checked anywhere. -/
def handleIssueAction (db : DB) (bookIssues : List BookIssue)
    (userId : Option String) (today : String) (statusErr : Option String)
    (issueId : String) (action : LibAction) : ActionResult :=
  match statusErr with
  | some _ =>
      { db := db
        writes := [DbWrite.issueUpdate issueId action]
        alert := Alert.failure ("Failed to " ++ libActionName action ++ " book. Please try again.") }
  | none =>
    let db1 := dbUpdateIssue db issueId action userId today
    let successAlert := Alert.success
      ("Book " ++ (if action == LibAction.approve then "issued" else "returned") ++ " successfully!")
    match action with
    | LibAction.approve =>
      match (bookIssues.find? (fun i => i.id == issueId)).bind (fun i => i.book) with
      | some bk =>
          { db := dbSetAvailable db1 bk.id (bk.available_copies - 1)
            writes := [DbWrite.issueUpdate issueId action,
                       DbWrite.bookUpdate bk.id (bk.available_copies - 1)]
            alert := successAlert }
      | none =>
          { db := db1
            writes := [DbWrite.issueUpdate issueId action]
            alert := successAlert }
    | LibAction.returnBook =>
      match (bookIssues.find? (fun i => i.id == issueId)).bind (fun i => i.book) with
      | some bk =>
          { db := dbSetAvailable db1 bk.id (bk.available_copies + 1)
            writes := [DbWrite.issueUpdate issueId action,
                       DbWrite.bookUpdate bk.id (bk.available_copies + 1)]
            alert := successAlert }
      | none =>
          { db := db1
            writes := [DbWrite.issueUpdate issueId action]
            alert := successAlert }

/-- The local-snapshot lookup `bookIssues.find(...)` followed by
`issue?.book` found nothing: no matching record, or a record with no
joined book. -/
def lookupHasNoBook (bookIssues : List BookIssue) (issueId : String) : Bool :=
  ((bookIssues.find? (fun i => i.id == issueId)).bind (fun i => i.book)).isNone

/-- One UI interaction in sequence: the handler runs against a fresh
snapshot (the component reloads after every action, part_000
line 122), and the resulting backend state carries over. -/
def stepAction (userId : Option String) (today : String) (db : DB)
    (act : String × LibAction) : DB :=
  (handleIssueAction db (loadSnapshot db) userId today none act.1 act.2).db

/-- A finite sequence of approve/return interactions applied through
the handler. -/
def runActions (userId : Option String) (today : String) (db : DB)
    (acts : List (String × LibAction)) : DB :=
  acts.foldl (stepAction userId today) db

/- ===== Counselor dashboard (CounselorDashboard.tsx) ===== -/

/-- `status` union of the `CounselingRequest` interface
(CounselorDashboard.tsx line 10). -/
inductive CStatus where
  | pending
  | accepted
  | completed
  | cancelled

deriving instance DecidableEq for CStatus

/-- A `counseling_requests` row: the interface fields
(CounselorDashboard.tsx lines 6-17) plus the `completed_at` column
the handler writes, the `student_id` reference behind the display
join, and the `counselor_id` column the loader filters on. -/
structure CounselingRequest where
  id : String
  reason : String
  message : Option String
  status : CStatus
  requested_at : String
  completed_at : Option String
  student_id : Option String
  counselor_id : Option String

deriving instance DecidableEq for CounselingRequest

/-- The `stats` record of the counselor dashboard (lines 23-28). -/
structure CounselingStats where
  totalRequests : Nat
  pendingRequests : Nat
  activeRequests : Nat
  completedRequests : Nat

deriving instance DecidableEq for CounselingStats

/-- The stats computation of `loadCounselingRequests`
(lines 52-57). -/
def counselingStats (requestsData : List CounselingRequest) : CounselingStats :=
  { totalRequests := requestsData.length
    pendingRequests := (requestsData.filter (fun r => r.status == CStatus.pending)).length
    activeRequests := (requestsData.filter (fun r => r.status == CStatus.accepted)).length
    completedRequests := (requestsData.filter (fun r => r.status == CStatus.completed)).length }

/-- The component state `loadCounselingRequests` may write. -/
structure CounselorState where
  requests : List CounselingRequest
  stats : CounselingStats
  loading : Bool

deriving instance DecidableEq for CounselorState

/-- Result of one `loadCounselingRequests` call: the new state, how
many read queries were issued, the console log, and the error (if
any) propagated to the caller — always `none`, as the catch block
only logs. -/
structure CounselorLoadResult where
  state : CounselorState
  queriesIssued : Nat
  consoleErrors : List String
  callerError : Option String

deriving instance DecidableEq for CounselorLoadResult

/-- JS truthiness of the `user?.id` chain: `undefined`/`null` and the
empty string are falsy. -/
def jsTruthy : Option String → Bool
  | none => false
  | some s => !(s == "")

/-- `loadCounselingRequests` (CounselorDashboard.tsx lines 34-63).
`userId` is `user?.id`; `if (!user?.id) return;` bails out before the
try block, so nothing — not even `loading` — changes and no query is
issued. -/
def loadCounselingRequests (userId : Option String) (prior : CounselorState)
    (res : QueryResult CounselingRequest) : CounselorLoadResult :=
  if jsTruthy userId = false then
    { state := prior
      queriesIssued := 0
      consoleErrors := []
      callerError := none }
  else
    match res.error with
    | some e =>
        { state := { prior with loading := false }
          queriesIssued := 1
          consoleErrors := ["Error loading counseling requests: " ++ e]
          callerError := none }
    | none =>
      let requestsData := res.data.getD []
      { state :=
          { requests := requestsData
            stats := counselingStats requestsData
            loading := false }
        queriesIssued := 1
        consoleErrors := []
        callerError := none }

/-- The `action` parameter of `handleRequestAction`:
`'accept' | 'complete'`. -/
inductive CAction where
  | accept
  | complete

deriving instance DecidableEq for CAction

/-- The TS string value of a `CAction`. -/
def cActionName : CAction → String
  | CAction.accept => "accept"
  | CAction.complete => "complete"

/-- Backend semantics of the counseling `updateData`
(CounselorDashboard.tsx lines 67-73) applied to a matching row:
`accept` writes only `status`; `complete` writes `status` and
`completed_at`. -/
def applyRequestUpdate (action : CAction) (now : String)
    (r : CounselingRequest) : CounselingRequest :=
  match action with
  | CAction.accept => { r with status := CStatus.accepted }
  | CAction.complete => { r with status := CStatus.completed, completed_at := some now }

/-- Result of one `handleRequestAction` call. -/
structure RequestActionResult where
  requestsTable : List CounselingRequest
  alert : Alert

deriving instance DecidableEq for RequestActionResult

/-- `handleRequestAction` (CounselorDashboard.tsx lines 65-88).  The
status update is issued unconditionally for the matching row; no
current-status precondition is checked.  The success template
`Request (action)ed successfully!` concatenates the raw action
string. -/
def handleRequestAction (table : List CounselingRequest) (statusErr : Option String)
    (requestId : String) (action : CAction) (now : String) : RequestActionResult :=
  match statusErr with
  | some _ =>
      { requestsTable := table
        alert := Alert.failure ("Failed to " ++ cActionName action ++ " request. Please try again.") }
  | none =>
      { requestsTable := table.map (fun r =>
          if r.id == requestId then applyRequestUpdate action now r else r)
        alert := Alert.success ("Request " ++ cActionName action ++ "ed successfully!") }

/- ===== Concrete snapshots used by the claim theorems ===== -/

/-- C1 input: a book that is out of stock. -/
def bC1 : Book := { id := "b1", title := "Algorithms", author := "Cormen", total_copies := 1, available_copies := 0 }

/-- C1 input: a pending request against the out-of-stock book. -/
def rC1 : IssueRow := { id := "i1", status := IssueStatus.requested, issued_date := "2026-09-01", due_date := "2026-09-15", return_date := none, issued_by := none, book_id := some "b1" }

/-- C1 input snapshot. -/
def dbC1 : DB := { books := [bC1], issues := [rC1] }

/-- C2 input: a book whose copies are all on the shelf. -/
def bC2 : Book := { id := "b2", title := "Discrete Math", author := "Rosen", total_copies := 2, available_copies := 2 }

/-- C2 input: an issued loan against that book (a pre-existing
inconsistency, as the spec calls it). -/
def rC2 : IssueRow := { id := "i2", status := IssueStatus.issued, issued_date := "2026-09-01", due_date := "2026-09-15", return_date := none, issued_by := some "lib1", book_id := some "b2" }

/-- C2 input snapshot. -/
def dbC2 : DB := { books := [bC2], issues := [rC2] }

/-- C3 input: one book within bounds. -/
def bC3 : Book := { id := "b3", title := "Physics", author := "Halliday", total_copies := 1, available_copies := 1 }

/-- C3 input: a requested issue against it. -/
def rC3 : IssueRow := { id := "i3", status := IssueStatus.requested, issued_date := "2026-09-01", due_date := "2026-09-15", return_date := none, issued_by := none, book_id := some "b3" }

/-- C3 input snapshot, satisfying 0 <= available <= total. -/
def dbC3 : DB := { books := [bC3], issues := [rC3] }

/-- C4 input: a counseling request still pending. -/
def reqC4 : CounselingRequest := { id := "r1", reason := "Exam stress", message := none, status := CStatus.pending, requested_at := "2026-10-01T09:00:00Z", completed_at := none, student_id := some "s1", counselor_id := some "c1" }

/-- C5 input: the book of the end-to-end scenario. -/
def bC5 : Book := { id := "b5", title := "Chemistry", author := "Atkins", total_copies := 2, available_copies := 2 }

/-- C5 input: the requested issue of the scenario. -/
def rC5 : IssueRow := { id := "i5", status := IssueStatus.requested, issued_date := "2026-10-01", due_date := "2026-10-15", return_date := none, issued_by := none, book_id := some "b5" }

/-- C5 input snapshot. -/
def dbC5 : DB := { books := [bC5], issues := [rC5] }

/-- C5: backend state after the approve interaction. -/
def dbC5a : DB := stepAction (some "lib1") "2026-10-11" dbC5 ("i5", LibAction.approve)

/-- C5: backend state after the subsequent return interaction. -/
def dbC5b : DB := stepAction (some "lib1") "2026-10-11" dbC5a ("i5", LibAction.returnBook)

/- ===== Claim theorems ===== -/

/-- C1: the claim says approving a `requested` issue whose book has
`available_copies = 0` fails with an out-of-stock condition and
leaves both records unchanged.  The code has no such guard: on the
concrete out-of-stock snapshot `dbC1` the approve action flips the
issue to `issued`, writes `available_copies = -1` to the book, and
reports success. -/
theorem approve_out_of_stock_mutates :
    (handleIssueAction dbC1 (loadSnapshot dbC1) (some "lib1") "2026-10-11" none "i1" LibAction.approve).db.books
      = [{ bC1 with available_copies := -1 }]
    ∧ (handleIssueAction dbC1 (loadSnapshot dbC1) (some "lib1") "2026-10-11" none "i1" LibAction.approve).db.issues
      = [{ rC1 with status := IssueStatus.issued, issued_by := some "lib1" }]
    ∧ (handleIssueAction dbC1 (loadSnapshot dbC1) (some "lib1") "2026-10-11" none "i1" LibAction.approve).writes
      = [DbWrite.issueUpdate "i1" LibAction.approve, DbWrite.bookUpdate "b1" (-1)]
    ∧ (handleIssueAction dbC1 (loadSnapshot dbC1) (some "lib1") "2026-10-11" none "i1" LibAction.approve).alert
      = Alert.success "Book issued successfully!" := by
  decide

/-- C2: the claim says returning an `issued` issue whose book already
has `available_copies = total_copies` keeps the count bounded by
`total_copies`.  The code has no such bound: on `dbC2` (2 of 2
copies available) the return action writes `available_copies = 3`,
strictly above `total_copies = 2`. -/
theorem return_exceeds_total :
    (handleIssueAction dbC2 (loadSnapshot dbC2) (some "lib1") "2026-10-11" none "i2" LibAction.returnBook).db.books
      = [{ bC2 with available_copies := 3 }]
    ∧ ((handleIssueAction dbC2 (loadSnapshot dbC2) (some "lib1") "2026-10-11" none "i2" LibAction.returnBook).db.books.all
        (fun b => b.total_copies < b.available_copies)) = true
    ∧ (handleIssueAction dbC2 (loadSnapshot dbC2) (some "lib1") "2026-10-11" none "i2" LibAction.returnBook).writes
      = [DbWrite.issueUpdate "i2" LibAction.returnBook, DbWrite.bookUpdate "b2" 3] := by
  decide

/-- C3: the claim says any finite sequence of approve/return actions
applied through the handler keeps `sum(available_copies) <=
sum(total_copies)` when the initial snapshot is within bounds.  The
unguarded handler violates it: starting from `dbC3` (1 of 1 copies,
within bounds), a single return action on the still-`requested`
issue drives the available sum to 2 while the total sum stays 1. -/
theorem handler_violates_sum_invariant :
    dbC3.books.all (fun b => 0 ≤ b.available_copies && b.available_copies ≤ b.total_copies) = true
    ∧ (libraryStats (runActions (some "lib1") "2026-10-11" dbC3 [("i3", LibAction.returnBook)]).books []).totalBooks
      < (libraryStats (runActions (some "lib1") "2026-10-11" dbC3 [("i3", LibAction.returnBook)]).books []).availableBooks := by
  decide

/-- C4: the claim says `complete` on a `pending` counseling request
is rejected without changing the record.  The handler checks no
precondition: on the pending request `reqC4` the complete action
silently writes `status = completed` and a completion timestamp, and
reports success. -/
theorem complete_on_pending_transitions :
    (handleRequestAction [reqC4] none "r1" CAction.complete "2026-10-11T10:00:00Z").requestsTable
      = [{ reqC4 with status := CStatus.completed, completed_at := some "2026-10-11T10:00:00Z" }]
    ∧ (handleRequestAction [reqC4] none "r1" CAction.complete "2026-10-11T10:00:00Z").alert
      = Alert.success "Request completeed successfully!" := by
  decide

/-- C5: end-to-end scenario.  From one book with `total_copies = 2,
available_copies = 2` and one `requested` issue, approve yields
`available_copies = 1` and status `issued`; the subsequent return
yields `available_copies = 2`, status `returned`, and a non-null
return date. -/
theorem approve_then_return_scenario :
    dbC5a.books.map Book.available_copies = [1]
    ∧ dbC5a.issues.map IssueRow.status = [IssueStatus.issued]
    ∧ dbC5b.books.map Book.available_copies = [2]
    ∧ dbC5b.issues.map IssueRow.status = [IssueStatus.returned]
    ∧ dbC5b.issues.map IssueRow.return_date = [some "2026-10-11"] := by
  decide

/- ===== C6: loader atomicity ===== -/

/-- C6 input: a book already held in the prior snapshot. -/
def bC6 : Book := { id := "b6", title := "Biology", author := "Campbell", total_copies := 3, available_copies := 3 }

/-- C6 input: the component state before the failing reload. -/
def priorC6 : LibState := { books := [bC6], bookIssues := [], stats := libraryStats [bC6] [], loading := false }

/-- C6 input: the books query fails. -/
def booksErrC6 : QueryResult Book := { data := none, error := some "network failure" }

/-- C6 input: the issues query succeeds. -/
def issuesOkC6 : QueryResult BookIssue := { data := some [], error := none }

/-- C6 counterexample: the claim says that on a query failure the
snapshot is left untouched AND the failure is reported to the
caller.  On the concrete failing execution below the snapshot is
indeed untouched, but the catch block only logs: the async function
resolves normally, so no failure reaches the caller and the claimed
disjunction is false. -/
theorem loader_failure_not_reported :
    ¬ ((booksErrC6.error = none ∧ issuesOkC6.error = none
        ∧ (loadLibraryData priorC6 booksErrC6 issuesOkC6).state.books = booksErrC6.data.getD []
        ∧ (loadLibraryData priorC6 booksErrC6 issuesOkC6).state.bookIssues = issuesOkC6.data.getD [])
      ∨ ((booksErrC6.error.isSome = true ∨ issuesOkC6.error.isSome = true)
        ∧ (loadLibraryData priorC6 booksErrC6 issuesOkC6).state.books = priorC6.books
        ∧ (loadLibraryData priorC6 booksErrC6 issuesOkC6).state.bookIssues = priorC6.bookIssues
        ∧ (loadLibraryData priorC6 booksErrC6 issuesOkC6).callerError.isSome = true)) := by
  decide

/-- C6 (amended): for every execution of `loadLibraryData`, either
both read queries succeed and the books, book-issues and stats parts
of the snapshot are all replaced by the newly fetched data, or at
least one query fails and none of those parts is updated — no
partial snapshot is committed — and the failure is only logged to
the error console: the loader itself resolves normally, so no error
indication reaches the caller in either case. -/
theorem loadLibraryData_atomic (prior : LibState) (booksRes : QueryResult Book)
    (issuesRes : QueryResult BookIssue) :
    (booksRes.error = none ∧ issuesRes.error = none
      ∧ (loadLibraryData prior booksRes issuesRes).state.books = booksRes.data.getD []
      ∧ (loadLibraryData prior booksRes issuesRes).state.bookIssues = issuesRes.data.getD []
      ∧ (loadLibraryData prior booksRes issuesRes).state.stats
          = libraryStats (booksRes.data.getD []) (issuesRes.data.getD [])
      ∧ (loadLibraryData prior booksRes issuesRes).callerError = none)
    ∨ ((booksRes.error.isSome = true ∨ issuesRes.error.isSome = true)
      ∧ (loadLibraryData prior booksRes issuesRes).state.books = prior.books
      ∧ (loadLibraryData prior booksRes issuesRes).state.bookIssues = prior.bookIssues
      ∧ (loadLibraryData prior booksRes issuesRes).state.stats = prior.stats
      ∧ (loadLibraryData prior booksRes issuesRes).consoleErrors.length = 1
      ∧ (loadLibraryData prior booksRes issuesRes).callerError = none) := by
  cases hb : booksRes.error with
  | some e =>
    right
    simp [loadLibraryData, hb]
  | none =>
    cases hi : issuesRes.error with
    | some e =>
      right
      simp [loadLibraryData, hb, hi]
    | none =>
      left
      simp [loadLibraryData, hb, hi]

/- ===== C7: stats reducer order-invariance ===== -/

/-- A `reduce((sum, x) => sum + f x, 0)` fold equals the sum of the
mapped list. -/
theorem foldl_add_eq_sum {α : Type} (f : α → Int) (l : List α) (init : Int) :
    l.foldl (fun s x => s + f x) init = init + (l.map f).sum := by
  induction l generalizing init with
  | nil => simp
  | cons a t ih =>
    simp only [List.foldl_cons, List.map_cons, List.sum_cons, ih]
    omega

/-- C7: both stats reducers are pure functions whose outputs are
invariant under any permutation of the snapshot rows: the two book
sums and all status counts agree on reordered inputs. -/
theorem stats_order_invariant (books1 books2 : List Book)
    (issues1 issues2 : List BookIssue) (reqs1 reqs2 : List CounselingRequest)
    (hb : books1.Perm books2) (hi : issues1.Perm issues2) (hr : reqs1.Perm reqs2) :
    libraryStats books1 issues1 = libraryStats books2 issues2
    ∧ counselingStats reqs1 = counselingStats reqs2 := by
  constructor
  · simp only [libraryStats, LibStats.mk.injEq]
    refine ⟨?_, ?_, ?_, ?_, ?_⟩
    · rw [foldl_add_eq_sum, foldl_add_eq_sum, (hb.map Book.total_copies).sum_eq]
    · rw [foldl_add_eq_sum, foldl_add_eq_sum, (hb.map Book.available_copies).sum_eq]
    · exact (hi.filter _).length_eq
    · exact (hi.filter _).length_eq
    · exact (hi.filter _).length_eq
  · simp only [counselingStats, CounselingStats.mk.injEq]
    exact ⟨hr.length_eq, (hr.filter _).length_eq, (hr.filter _).length_eq, (hr.filter _).length_eq⟩

/-- C7 witness inputs: two books, in two orders. -/
def booksExA : List Book :=
  [{ id := "x1", title := "A", author := "a", total_copies := 4, available_copies := 2 },
   { id := "x2", title := "B", author := "b", total_copies := 1, available_copies := 1 }]

/-- C7 witness inputs: the same two books reordered. -/
def booksExB : List Book := booksExA.reverse

/-- C7 witness inputs: five issues — three `issued`, one `requested`,
one `overdue`. -/
def issuesExA : List BookIssue :=
  [{ id := "j1", status := IssueStatus.issued, issued_date := "2026-10-01", due_date := "2026-10-15", book := none },
   { id := "j2", status := IssueStatus.issued, issued_date := "2026-10-02", due_date := "2026-10-16", book := none },
   { id := "j3", status := IssueStatus.issued, issued_date := "2026-10-03", due_date := "2026-10-17", book := none },
   { id := "j4", status := IssueStatus.requested, issued_date := "2026-10-04", due_date := "2026-10-18", book := none },
   { id := "j5", status := IssueStatus.overdue, issued_date := "2026-09-01", due_date := "2026-09-15", book := none }]

/-- C7 witness inputs: the same five issues reordered. -/
def issuesExB : List BookIssue := issuesExA.reverse

/-- C7 witness inputs: two counseling requests, in two orders. -/
def reqsExA : List CounselingRequest :=
  [{ id := "q1", reason := "Career", message := none, status := CStatus.pending, requested_at := "2026-10-01T09:00:00Z", completed_at := none, student_id := some "s1", counselor_id := some "c1" },
   { id := "q2", reason := "Stress", message := some "help", status := CStatus.accepted, requested_at := "2026-10-02T09:00:00Z", completed_at := none, student_id := some "s2", counselor_id := some "c1" }]

/-- C7 witness inputs: the same two requests reordered. -/
def reqsExB : List CounselingRequest := reqsExA.reverse

/-- C7 witness: the invariance theorem applied to concrete reordered
snapshots, together with the example counts the claim names (3
`issued`, 1 `requested`, 1 `overdue` out of 5). -/
theorem stats_order_invariant_witness :
    (libraryStats booksExA issuesExA = libraryStats booksExB issuesExB
      ∧ counselingStats reqsExA = counselingStats reqsExB)
    ∧ (libraryStats booksExA issuesExA).issuedBooks = 3
    ∧ (libraryStats booksExA issuesExA).pendingRequests = 1
    ∧ (libraryStats booksExA issuesExA).overdueBooks = 1 :=
  ⟨stats_order_invariant booksExA booksExB issuesExA issuesExB reqsExA reqsExB
      (by decide) (by decide) (by decide),
   by decide, by decide, by decide⟩

/- ===== C8: handler with no snapshot match / no joined book ===== -/

/-- C8: when the local snapshot lookup finds no record for `issueId`,
or finds one with no joined book, the handler still issues the
status-update write for that id, performs no inventory write — the
books table is untouched — and still reports success. -/
theorem issue_action_without_book (db : DB) (bookIssues : List BookIssue)
    (userId : Option String) (today issueId : String) (action : LibAction)
    (h : lookupHasNoBook bookIssues issueId = true) :
    (handleIssueAction db bookIssues userId today none issueId action).writes
      = [DbWrite.issueUpdate issueId action]
    ∧ (handleIssueAction db bookIssues userId today none issueId action).db.books = db.books
    ∧ (handleIssueAction db bookIssues userId today none issueId action).alert
      = Alert.success ("Book " ++ (if action == LibAction.approve then "issued" else "returned") ++ " successfully!") := by
  have hfb : (bookIssues.find? (fun i => i.id == issueId)).bind (fun i => i.book) = none := by
    simpa [lookupHasNoBook, Option.isNone_iff_eq_none] using h
  cases action <;> simp [handleIssueAction, hfb, dbUpdateIssue]

/-- C8 witness input: a snapshot whose only row matches the id but
carries no joined book. -/
def snapC8 : List BookIssue :=
  [{ id := "i8", status := IssueStatus.requested, issued_date := "2026-10-01", due_date := "2026-10-15", book := none }]

/-- C8 witness input: the backend state. -/
def dbC8 : DB :=
  { books := [{ id := "b8", title := "History", author := "Smith", total_copies := 1, available_copies := 1 }],
    issues := [] }

/-- C8 witness: the frame theorem applied at the concrete no-book
snapshot. -/
theorem issue_action_without_book_witness :
    lookupHasNoBook snapC8 "i8" = true
    ∧ ((handleIssueAction dbC8 snapC8 (some "lib1") "2026-10-11" none "i8" LibAction.approve).writes
        = [DbWrite.issueUpdate "i8" LibAction.approve]
      ∧ (handleIssueAction dbC8 snapC8 (some "lib1") "2026-10-11" none "i8" LibAction.approve).db.books = dbC8.books
      ∧ (handleIssueAction dbC8 snapC8 (some "lib1") "2026-10-11" none "i8" LibAction.approve).alert
        = Alert.success ("Book " ++ (if LibAction.approve == LibAction.approve then "issued" else "returned") ++ " successfully!")) :=
  ⟨by decide,
   issue_action_without_book dbC8 snapC8 (some "lib1") "2026-10-11" "i8" LibAction.approve (by decide)⟩

/- ===== C9: counseling update frame ===== -/

/-- C9: the counseling handler maps exactly the `updateData` row
update over the matching row, and that update writes only `status`
for accept and only `status` plus `completed_at` for complete:
`reason`, `message`, `requested_at`, the student reference and the
counselor reference are preserved by both, and accept preserves
`completed_at`. -/
theorem request_action_writes_only_status (table : List CounselingRequest)
    (requestId now : String) (a : CAction) (r : CounselingRequest) :
    (handleRequestAction table none requestId a now).requestsTable
      = table.map (fun q => if q.id == requestId then applyRequestUpdate a now q else q)
    ∧ (applyRequestUpdate CAction.accept now r).status = CStatus.accepted
    ∧ (applyRequestUpdate CAction.accept now r).completed_at = r.completed_at
    ∧ (applyRequestUpdate CAction.accept now r).reason = r.reason
    ∧ (applyRequestUpdate CAction.accept now r).message = r.message
    ∧ (applyRequestUpdate CAction.accept now r).requested_at = r.requested_at
    ∧ (applyRequestUpdate CAction.accept now r).student_id = r.student_id
    ∧ (applyRequestUpdate CAction.accept now r).counselor_id = r.counselor_id
    ∧ (applyRequestUpdate CAction.complete now r).status = CStatus.completed
    ∧ (applyRequestUpdate CAction.complete now r).completed_at = some now
    ∧ (applyRequestUpdate CAction.complete now r).reason = r.reason
    ∧ (applyRequestUpdate CAction.complete now r).message = r.message
    ∧ (applyRequestUpdate CAction.complete now r).requested_at = r.requested_at
    ∧ (applyRequestUpdate CAction.complete now r).student_id = r.student_id
    ∧ (applyRequestUpdate CAction.complete now r).counselor_id = r.counselor_id :=
  ⟨rfl, rfl, rfl, rfl, rfl, rfl, rfl, rfl, rfl, rfl, rfl, rfl, rfl, rfl, rfl⟩

/- ===== C10: counselor loader with no authenticated user ===== -/

/-- C10: with no user id available, `loadCounselingRequests` returns
before the try block: it issues no read query and leaves the
requests snapshot, the stats and the loading flag exactly as they
were. -/
theorem load_requests_no_user (prior : CounselorState)
    (res : QueryResult CounselingRequest) (userId : Option String)
    (h : userId = none) :
    (loadCounselingRequests userId prior res).state.requests = prior.requests
    ∧ (loadCounselingRequests userId prior res).state.stats = prior.stats
    ∧ (loadCounselingRequests userId prior res).state.loading = prior.loading
    ∧ (loadCounselingRequests userId prior res).queriesIssued = 0 := by
  subst h
  simp [loadCounselingRequests, jsTruthy]

/-- C10 witness input: a prior state mid-load with one request. -/
def priorC10 : CounselorState :=
  { requests := [{ id := "q9", reason := "Attendance", message := none, status := CStatus.pending, requested_at := "2026-10-05T09:00:00Z", completed_at := none, student_id := some "s9", counselor_id := some "c9" }],
    stats := { totalRequests := 1, pendingRequests := 1, activeRequests := 0, completedRequests := 0 },
    loading := true }

/-- C10 witness input: a query result that would have replaced the
snapshot had it been consulted. -/
def resC10 : QueryResult CounselingRequest := { data := some [], error := none }

/-- C10 witness: the guard theorem applied with an absent user id. -/
theorem load_requests_no_user_witness :
    (loadCounselingRequests none priorC10 resC10).state.requests = priorC10.requests
    ∧ (loadCounselingRequests none priorC10 resC10).state.stats = priorC10.stats
    ∧ (loadCounselingRequests none priorC10 resC10).state.loading = priorC10.loading
    ∧ (loadCounselingRequests none priorC10 resC10).queriesIssued = 0 :=
  load_requests_no_user priorC10 resC10 none rfl
